import Mathlib

/-!
Verification development for the ILP timetable solver service
(src/ilp-solver/app.py).  The service has two endpoints:

* `POST /solve-labs`   (`solve_lab_timetable`,   app.py lines 86-439)
* `POST /solve-theory` (`solve_theory_timetable`, app.py lines 478-805)

Both build a CP-SAT model (decision variables enumerated with hard
pre-filters, then linear constraints), call the solver, and translate the
solver's answer back into a `SolutionResponse`.  The solver itself is an
external collaborator; here it is modelled as a value of type
`SolverResult` handed to the pure solve function, together with the
contract that an OPTIMAL/FEASIBLE result carries a truth assignment
satisfying every constraint the code added to the model.

Machine integers of the Python source (pydantic `int`) are unbounded, so
they are embedded as `Int`; loop indices produced by `range(...)` are
embedded as `Nat`.  The one floating-point computation of the source,
`int(course.studentCount * 0.85)` (app.py line 181), is embedded as
`Int.tdiv (17 * studentCount) 20`: Python's `int()` truncates toward
zero, and for every `|studentCount| < 2^49` the double computation
`studentCount * 0.85` truncates to exactly that value (the nearest double
to 0.85 exceeds 17/20 by about 4.44e-17, too little to cross an integer
boundary at these magnitudes).
-/

/-- Input record, app.py lines 26-34. -/
structure Course where
  sectionId : String
  sectionName : String
  subjectId : String
  subjectCode : String
  facultyId : String
  facultyCode : String
  studentCount : Int
  yearLevel : Int
  deriving DecidableEq, Repr, Inhabited

/-- Input record, app.py lines 36-39. -/
structure Room where
  id : String
  name : String
  capacity : Int
  deriving DecidableEq, Repr, Inhabited

/-- Input record, app.py lines 41-44. -/
structure AvailabilitySlot where
  dayOfWeek : Int
  startPeriod : Int
  endPeriod : Int
  deriving DecidableEq, Repr, Inhabited

/-- Input record, app.py lines 46-48. -/
structure FacultyAvailability where
  facultyId : String
  slots : List AvailabilitySlot
  deriving DecidableEq, Repr, Inhabited

/-- Input record, app.py lines 50-53. -/
structure Rules where
  labPeriods : Int
  daysPerWeek : Int
  periodsPerDay : Int
  deriving DecidableEq, Repr, Inhabited

/-- Input record, app.py lines 55-59. -/
structure ProblemData where
  courses : List Course
  rooms : List Room
  facultyAvailability : List FacultyAvailability
  rules : Rules
  deriving DecidableEq, Repr, Inhabited

/-- Output record, app.py lines 62-68. -/
structure Assignment where
  sectionId : String
  subjectId : String
  day : Int
  startPeriod : Int
  endPeriod : Int
  roomId : String
  deriving DecidableEq, Repr, Inhabited

/-- Output record, app.py lines 70-75. -/
structure SolutionResponse where
  success : Bool
  status : String
  message : String
  assignments : List Assignment
  solveTimeMs : Int
  deriving DecidableEq, Repr, Inhabited

/-- Theory input record, app.py lines 446-455. -/
structure TheoryCourse where
  sectionId : String
  sectionName : String
  subjectId : String
  subjectCode : String
  facultyId : String
  facultyCode : String
  studentCount : Int
  yearLevel : Int
  periodsPerWeek : Int
  deriving DecidableEq, Repr, Inhabited

/-- Theory input record, app.py lines 457-463. -/
structure ExistingAssignment where
  sectionId : String
  day : Int
  startPeriod : Int
  endPeriod : Int
  facultyId : String
  roomId : String
  deriving DecidableEq, Repr, Inhabited

/-- Theory input record, app.py lines 465-469. -/
structure TheoryRules where
  daysPerWeek : Int
  periodsPerDay : Int
  maxPeriodsPerBlock : Int
  maxPeriodsPerDay : Int
  deriving DecidableEq, Repr, Inhabited

/-- Theory input record, app.py lines 471-476. -/
structure TheoryProblemData where
  courses : List TheoryCourse
  rooms : List Room
  facultyAvailability : List FacultyAvailability
  existingAssignments : List ExistingAssignment
  rules : TheoryRules
  deriving DecidableEq, Repr, Inhabited

/-!
## Availability indexer (app.py lines 134-153 for labs, 521-531 for theory)

Both copies are character-for-character the same computation: a dict is
built by iterating `data.facultyAvailability`; an entry with an empty
slot list maps to the sentinel string `"all"`, otherwise to the set of
`(dayOfWeek, period)` pairs with `period` in
`range(slot.startPeriod, slot.endPeriod + 1)`.  Every *use* of the dict
is `faculty_avail_map.get(fid, "all")`, so an absent faculty id reads as
the sentinel; the embedding folds the `.get` default into the lookup
function.  The Python value is a `set`; a list with the same members is
used here, and all facts about it are stated via membership.
-/

/-- Either the `"all"` sentinel or the set of allowed (day, period) pairs. -/
inductive FacultyAvail where
  | all : FacultyAvail
  | avail : List (Int × Int) → FacultyAvail
  deriving DecidableEq, Repr

/-- `[(s.dayOfWeek, p) for p in range(s.startPeriod, s.endPeriod + 1)]`,
app.py lines 143-145. -/
def slotPairs (s : AvailabilitySlot) : List (Int × Int) :=
  (List.range (s.endPeriod + 1 - s.startPeriod).toNat).map
    fun (k : Nat) => (s.dayOfWeek, s.startPeriod + (k : Int))

/-- The dict value stored for one `FacultyAvailability` entry
(app.py lines 138-146). -/
def availEntry (fa : FacultyAvailability) : FacultyAvail :=
  if fa.slots.isEmpty then .all else .avail (fa.slots.flatMap slotPairs)

/-- One iteration of the dict-building loop: overwrite the key
`fa.facultyId` with `availEntry fa`. -/
def availStep (m : String → FacultyAvail) (fa : FacultyAvailability) :
    String → FacultyAvail :=
  fun f => if f == fa.facultyId then availEntry fa else m f

/-- The faculty availability map with the `.get(fid, "all")` default
built in (app.py lines 135-146 and every `faculty_avail_map.get` site). -/
def facultyAvailMap (l : List FacultyAvailability) (fid : String) :
    FacultyAvail :=
  (l.foldl availStep (fun _ => .all)) fid

/-!
## Lab pass: decision-variable enumeration (app.py lines 125-190)
-/

/-- The two fixed lab blocks, app.py line 126. -/
inductive Block where
  | M : Block
  | A : Block
  deriving DecidableEq, Repr

/-- `block_periods`, app.py lines 127-130: M = periods 1-4, A = periods 5-8,
independent of every field of `rules`. -/
def blockPeriods : Block → List Nat
  | .M => [1, 2, 3, 4]
  | .A => [5, 6, 7, 8]

/-- Key of one lab decision variable `L[(c_idx, day, block, r_idx)]`,
app.py line 187. -/
structure LabKey where
  cIdx : Nat
  day : Nat
  block : Block
  rIdx : Nat
  deriving DecidableEq, Repr

/-- `days = list(range(rules.daysPerWeek))`, app.py line 132. -/
def labDays (d : ProblemData) : List Nat :=
  List.range d.rules.daysPerWeek.toNat

/-- `min_acceptable = int(course.studentCount * 0.85)`, app.py line 181
(see the header note on the float embedding). -/
def labMinCap (c : Course) : Int :=
  Int.tdiv (17 * c.studentCount) 20

/-- Faculty-availability pre-filter for a whole 4-period lab block,
app.py lines 172-176. -/
def availOkLab (av : FacultyAvail) (day : Nat) (b : Block) : Bool :=
  match av with
  | .all => true
  | .avail s => (blockPeriods b).all fun p => s.contains ((day : Int), (p : Int))

/-- All pre-filters a lab (course, day, block, room) combination must pass
to receive a decision variable (app.py lines 164-188, the three
`continue` sites). -/
def labKeyOk (d : ProblemData) (k : LabKey) : Bool :=
  let course := d.courses.getD k.cIdx default
  let room := d.rooms.getD k.rIdx default
  !(k.day == 5 && k.block == Block.A && course.yearLevel != 1) &&
  availOkLab (facultyAvailMap d.facultyAvailability course.facultyId)
    k.day k.block &&
  !(room.capacity < labMinCap course)

/-- The full loop nest of app.py lines 164-178 before filtering. -/
def labCandidates (d : ProblemData) : List LabKey :=
  (List.range d.courses.length).flatMap fun cIdx =>
    (labDays d).flatMap fun day =>
      [Block.M, Block.A].flatMap fun b =>
        (List.range d.rooms.length).map fun rIdx =>
          ⟨cIdx, day, b, rIdx⟩

/-- `valid_assignments` for the lab pass, app.py lines 162-188: exactly
the combinations that survive every `continue`. -/
def validAssignmentsLab (d : ProblemData) : List LabKey :=
  (labCandidates d).filter (labKeyOk d)

/-- `course_vars` for one lab course, app.py lines 200-204. -/
def labCourseVars (d : ProblemData) (cIdx : Nat) : List LabKey :=
  (validAssignmentsLab d).filter fun k => k.cIdx == cIdx

/-!
## Lab pass: pre-solve infeasibility diagnosis (app.py lines 198-269)

For every course whose `course_vars` is empty the code computes a
diagnosis dict (lines 214-253): the count of rooms meeting the relaxed
capacity threshold, the faculty's availability windows found by a
first-match scan of `data.facultyAvailability` (line 218), and a
`blockingReasons` list.  If any such course exists, a `ValueError` is
raised (lines 255-269); the endpoint's catch-all (lines 436-439) turns
any exception into `HTTPException(status_code=500, detail=str(e))`.
-/

/-- `suitable_rooms`, app.py line 215. -/
def labSuitableRooms (d : ProblemData) (c : Course) : List Room :=
  d.rooms.filter fun r => !(r.capacity < labMinCap c)

/-- `faculty_info` / `faculty_slots_list`, app.py lines 218-219:
the slots of the *first* entry whose facultyId matches, else `[]`. -/
def facultySlotsList (d : ProblemData) (c : Course) : List AvailabilitySlot :=
  match d.facultyAvailability.find? (fun fa => fa.facultyId == c.facultyId) with
  | some fa => fa.slots
  | none => []

/-- `[a, a+1, ..., b-1]` over `Int`, Python's `range(a, b)`. -/
def intRange (a b : Int) : List Int :=
  (List.range (b - a).toNat).map fun (k : Nat) => a + (k : Int)

/-- `valid_blocks`, app.py lines 235-238: the (day, start) pairs of
4-period blocks fitting inside some availability window. -/
def labValidBlocks (slots : List AvailabilitySlot) : List (Int × Int) :=
  slots.flatMap fun s =>
    (intRange s.startPeriod (s.endPeriod - 3 + 1)).map fun startP =>
      (s.dayOfWeek, startP)

/-- The specific blocking-cause string for windows with no room for a
4-period block, app.py line 240. -/
def noBlocksReason : String :=
  "Faculty windows don\x27t allow 4-period blocks"

/-- `blocking_reasons`, app.py lines 228-240. -/
def labBlockingReasons (d : ProblemData) (c : Course) : List String :=
  let suitable := labSuitableRooms d c
  let slots := facultySlotsList d c
  (if suitable.length == 0 then
     ["No rooms with capacity >= " ++ toString (labMinCap c)]
   else []) ++
  (if slots.length == 0 then
     ["Faculty " ++ c.facultyCode ++ " has NO availability windows"]
   else if (labValidBlocks slots).length == 0 then
     [noBlocksReason]
   else [])

/-- One entry of `unschedulable_labs`, app.py lines 244-253.  The Python
dict key `"section"` is the field `sectionName` here (`section` is a
Lean keyword). -/
structure UnschedulableLab where
  subjectCode : String
  sectionName : String
  studentCount : Int
  facultyCode : String
  suitableRooms : Nat
  facultyWindows : Nat
  blockingReasons : List String
  reason : String
  deriving DecidableEq, Repr, Inhabited

/-- The dict pushed for one unschedulable course, app.py lines 244-253. -/
def mkUnschedulable (d : ProblemData) (c : Course) : UnschedulableLab :=
  let reasons := labBlockingReasons d c
  { subjectCode := c.subjectCode
    sectionName := c.sectionName
    studentCount := c.studentCount
    facultyCode := c.facultyCode
    suitableRooms := (labSuitableRooms d c).length
    facultyWindows := (facultySlotsList d c).length
    blockingReasons := reasons
    reason := if reasons.isEmpty then "Unknown constraint conflict"
              else String.intercalate " | " reasons }

/-- `unschedulable_labs`, app.py lines 198-253: one record per course
with an empty candidate-variable set, in course order. -/
def unschedulableLabs (d : ProblemData) : List UnschedulableLab :=
  (List.range d.courses.length).filterMap fun cIdx =>
    if (labCourseVars d cIdx).isEmpty then
      some (mkUnschedulable d (d.courses.getD cIdx default))
    else none

/-- One per-lab line of `error_details`, app.py lines 257-261.  Note the
line carries the course identity and two *counts*; the
`blockingReasons` / `reason` fields of the record are not used. -/
def labDetailLine (lab : UnschedulableLab) : String :=
  "  ‚Ä¢ " ++ lab.subjectCode ++ " (" ++ lab.sectionName ++ ", " ++
  toString lab.studentCount ++ " students)\n    Faculty: " ++
  lab.facultyCode ++ ", Suitable Rooms: " ++ toString lab.suitableRooms ++
  ", Availability Windows: " ++ toString lab.facultyWindows

/-- The full `ValueError` message, app.py lines 262-269; after the
catch-all of lines 436-439 this string is the HTTP 500 `detail`. -/
def labValueErrorMsg (d : ProblemData) : String :=
  let labs := unschedulableLabs d
  "INFEASIBLE: Cannot schedule " ++ toString labs.length ++ " lab(s):\n" ++
  String.intercalate "\n" (labs.map labDetailLine) ++
  "\n\nDiagnosis:\n- Total rooms: " ++ toString d.rooms.length ++
  "\n- Total time blocks: " ++ toString (labDays d).length ++
  " days √ó 2 blocks = " ++ toString ((labDays d).length * 2) ++
  "\n- Total valid assignments checked: " ++
  toString (validAssignmentsLab d).length ++
  "\n\nPlease check: (1) Lab room capacities, (2) Faculty availability, (3) Time block availability"

/-!
## Linear constraints and the CP-SAT model (app.py lines 192-353, 621-738)

A constraint is a linear (in)equality over boolean decision variables;
`model.Add(sum(vars) == rhs)` and `model.Add(sum(vars) <= rhs)` are the
only two forms the code generates.  A solver truth assignment is a
function from keys to `Bool`; the solver contract is that an
OPTIMAL/FEASIBLE answer satisfies every generated constraint.
-/

/-- One `model.Add(...)` call: an equality or inequality between a
linear form over decision variables and an integer constant. -/
inductive LinCon (K : Type) where
  | eqCon : List (Int × K) → Int → LinCon K
  | leCon : List (Int × K) → Int → LinCon K
  deriving Repr

/-- Value of one boolean variable in a truth assignment. -/
def boolInt (b : Bool) : Int := if b then 1 else 0

/-- Value of a linear form under a truth assignment. -/
def lhsVal (sol : K → Bool) (terms : List (Int × K)) : Int :=
  (terms.map fun t => t.1 * boolInt (sol t.2)).sum

/-- Whether a truth assignment satisfies one constraint. -/
def conHolds (sol : K → Bool) : LinCon K → Bool
  | .eqCon terms rhs => lhsVal sol terms == rhs
  | .leCon terms rhs => decide (lhsVal sol terms ≤ rhs)

/-- Constraint 1 for labs, app.py lines 198-212: for each course whose
candidate set is nonempty, `sum(course_vars) == 1`. -/
def labLoadCons (d : ProblemData) : List (LinCon LabKey) :=
  (List.range d.courses.length).filterMap fun cIdx =>
    let cv := labCourseVars d cIdx
    if cv.isEmpty then none
    else some (.eqCon (cv.map fun k => ((1 : Int), k)) 1)

/-- `range(1, rules.periodsPerDay + 1)`, app.py line 278 etc. -/
def labPeriodRange (d : ProblemData) : List Nat :=
  (List.range d.rules.periodsPerDay.toNat).map (· + 1)

/-- Constraint 2 for labs, app.py lines 276-287: room non-overlap per
(room, day, period). -/
def labRoomCons (d : ProblemData) : List (LinCon LabKey) :=
  (List.range d.rooms.length).flatMap fun rIdx =>
    (labDays d).flatMap fun day =>
      (labPeriodRange d).filterMap fun period =>
        let pv := (validAssignmentsLab d).filter fun k =>
          k.rIdx == rIdx && k.day == day &&
          (blockPeriods k.block).contains period
        if pv.isEmpty then none
        else some (.leCon (pv.map fun k => ((1 : Int), k)) 1)

/-- Keys of `section_to_courses` in insertion order, app.py lines 295-299. -/
def labSectionIds (d : ProblemData) : List String :=
  (d.courses.map (·.sectionId)).eraseDups

/-- Course indices of one section, app.py lines 295-299. -/
def labSectionCourseIdx (d : ProblemData) (sid : String) : List Nat :=
  (List.range d.courses.length).filter fun i =>
    (d.courses.getD i default).sectionId == sid

/-- Constraint 3 for labs, app.py lines 301-312: section non-overlap per
(section, day, period). -/
def labSectionCons (d : ProblemData) : List (LinCon LabKey) :=
  (labSectionIds d).flatMap fun sid =>
    (labDays d).flatMap fun day =>
      (labPeriodRange d).filterMap fun period =>
        let pv := (labSectionCourseIdx d sid).flatMap fun cIdx =>
          (validAssignmentsLab d).filter fun k =>
            k.cIdx == cIdx && k.day == day &&
            (blockPeriods k.block).contains period
        if pv.isEmpty then none
        else some (.leCon (pv.map fun k => ((1 : Int), k)) 1)

/-- Keys of `faculty_to_courses` in insertion order, app.py lines 319-323. -/
def labFacultyIds (d : ProblemData) : List String :=
  (d.courses.map (·.facultyId)).eraseDups

/-- Course indices of one faculty, app.py lines 319-323. -/
def labFacultyCourseIdx (d : ProblemData) (fid : String) : List Nat :=
  (List.range d.courses.length).filter fun i =>
    (d.courses.getD i default).facultyId == fid

/-- Constraint 4 for labs, app.py lines 325-336: faculty non-overlap per
(faculty, day, period). -/
def labFacultyCons (d : ProblemData) : List (LinCon LabKey) :=
  (labFacultyIds d).flatMap fun fid =>
    (labDays d).flatMap fun day =>
      (labPeriodRange d).filterMap fun period =>
        let pv := (labFacultyCourseIdx d fid).flatMap fun cIdx =>
          (validAssignmentsLab d).filter fun k =>
            k.cIdx == cIdx && k.day == day &&
            (blockPeriods k.block).contains period
        if pv.isEmpty then none
        else some (.leCon (pv.map fun k => ((1 : Int), k)) 1)

/-- Every hard constraint of the lab model, in generation order
(app.py lines 192-338; the objective of lines 340-353 is a soft
preference and does not affect satisfiability). -/
def labCons (d : ProblemData) : List (LinCon LabKey) :=
  labLoadCons d ++ labRoomCons d ++ labSectionCons d ++ labFacultyCons d

/-- The solver contract for a satisfying assignment of the lab model. -/
def labSatisfiesB (d : ProblemData) (sol : LabKey → Bool) : Bool :=
  (labCons d).all (conHolds sol)

/-!
## Lab pass: solution extraction and the endpoint result
(app.py lines 355-439)
-/

/-- The solver's terminal answer.  `optimal`/`feasible` carry the truth
assignment read back by `solver.Value`; `other` carries the verbatim
`solver.StatusName(status)` string. -/
inductive SolverResult (K : Type) where
  | optimal : (K → Bool) → SolverResult K
  | feasible : (K → Bool) → SolverResult K
  | infeasible : SolverResult K
  | other : String → SolverResult K

/-- What the endpoint hands back to the transport layer: either a normal
`SolutionResponse`, or an `HTTPException(status_code, detail)` produced
by the catch-all (app.py lines 436-439). -/
inductive SolveOutcome where
  | ok : SolutionResponse → SolveOutcome
  | httpError : Nat → String → SolveOutcome
  deriving Repr

/-- The keys whose variables are true in the solution, in enumeration
order (the `solver.Value(...) == 1` scan, app.py lines 374-376). -/
def labChosen (d : ProblemData) (sol : LabKey → Bool) : List LabKey :=
  (validAssignmentsLab d).filter sol

/-- The `Assignment` emitted for one true variable, app.py lines 377-388:
`startPeriod = periods[0]`, `endPeriod = periods[-1]`. -/
def labEmit (d : ProblemData) (k : LabKey) : Assignment :=
  let course := d.courses.getD k.cIdx default
  let room := d.rooms.getD k.rIdx default
  let ps := blockPeriods k.block
  { sectionId := course.sectionId
    subjectId := course.subjectId
    day := (k.day : Int)
    startPeriod := ((ps.headD 0 : Nat) : Int)
    endPeriod := ((ps.getLastD 0 : Nat) : Int)
    roomId := room.id }

/-- The assignment list extracted from a satisfying solution,
app.py lines 374-388. -/
def labAssignments (d : ProblemData) (sol : LabKey → Bool) : List Assignment :=
  (labChosen d sol).map (labEmit d)

/-- Success message, app.py line 399. -/
def labSuccessMsg (d : ProblemData) (sol : LabKey → Bool) : String :=
  "Successfully scheduled " ++ toString (labAssignments d sol).length ++ " labs"

/-- The per-course diagnostic built in the INFEASIBLE branch, app.py
lines 409-413: one line per course whose candidate set is empty. -/
def labDiag (d : ProblemData) : List String :=
  (List.range d.courses.length).filterMap fun cIdx =>
    if (labCourseVars d cIdx).isEmpty then
      let c := d.courses.getD cIdx default
      some ("‚Ä¢ " ++ c.subjectCode ++ " (" ++ c.sectionName ++
        "): No valid rooms/times available (check capacity & faculty availability)")
    else none

/-- `diag_msg`, app.py line 415. -/
def labDiagMsg (d : ProblemData) : String :=
  if (labDiag d).isEmpty then "Unknown reason"
  else String.intercalate "\n" (labDiag d)

/-- The INFEASIBLE response message, app.py line 420. -/
def labInfeasibleMsg (d : ProblemData) : String :=
  "No feasible solution exists.\n\nPossible issues:\n" ++ labDiagMsg d ++
  "\n\nSuggestions:\n‚Ä¢ Add more lab rooms\n‚Ä¢ Increase room capacities\n‚Ä¢ Expand faculty availability\n‚Ä¢ Reduce number of sections"

/-- `solve_lab_timetable`, app.py lines 86-439, as a function of the
input, the solver's answer and the measured solve time.  When some lab
has an empty candidate set the `ValueError` of lines 255-269 is raised
before constraints 2-4 are added and before the solver is invoked, and
the catch-all of lines 436-439 converts it into an HTTP 500 whose
detail is the `ValueError` message. -/
def solveLabs (d : ProblemData) (res : SolverResult LabKey) (tms : Int) :
    SolveOutcome :=
  if (unschedulableLabs d).isEmpty then
    match res with
    | .optimal sol =>
        .ok { success := true, status := "OPTIMAL",
              message := labSuccessMsg d sol,
              assignments := labAssignments d sol, solveTimeMs := tms }
    | .feasible sol =>
        .ok { success := true, status := "FEASIBLE",
              message := labSuccessMsg d sol,
              assignments := labAssignments d sol, solveTimeMs := tms }
    | .infeasible =>
        .ok { success := false, status := "INFEASIBLE",
              message := labInfeasibleMsg d,
              assignments := [], solveTimeMs := tms }
    | .other s =>
        .ok { success := false, status := s,
              message := "Solver terminated with status: " ++ s,
              assignments := [], solveTimeMs := tms }
  else
    .httpError 500 (labValueErrorMsg d)

/-!
## Theory pass: existing-assignment occupancy and variable enumeration
(app.py lines 511-619)

The Python code builds three dicts keyed by id, whose values are sets of
strings `f"{day}-{p}"`.  The map from a `(day, p)` pair of ints to that
string is injective (the separator splits the two decimal renderings
unambiguously), so the embedding keeps the pairs themselves and states
occupancy as pair membership.
-/

/-- Key of one theory decision variable
`T[(c_idx, day, start, size, r_idx)]`, app.py line 616. -/
structure TheoryKey where
  cIdx : Nat
  day : Nat
  startP : Nat
  size : Nat
  rIdx : Nat
  deriving DecidableEq, Repr

/-- `days = list(range(rules.daysPerWeek))`, app.py line 518. -/
def theoryDays (t : TheoryProblemData) : List Nat :=
  List.range t.rules.daysPerWeek.toNat

/-- `[a, a+1, ..., b]` over `Int`, Python's `range(a, b + 1)`. -/
def intRangeIncl (a b : Int) : List Int :=
  (List.range (b + 1 - a).toNat).map fun (k : Nat) => a + (k : Int)

/-- `existing_section[sid]`, app.py lines 538-552: every (day, period)
pair covered by an existing assignment of section `sid`. -/
def existingSectionPairs (t : TheoryProblemData) (sid : String) :
    List (Int × Int) :=
  (t.existingAssignments.filter fun a => a.sectionId == sid).flatMap fun a =>
    (intRangeIncl a.startPeriod a.endPeriod).map fun p => (a.day, p)

/-- `existing_faculty[fid]`, app.py lines 538-552. -/
def existingFacultyPairs (t : TheoryProblemData) (fid : String) :
    List (Int × Int) :=
  (t.existingAssignments.filter fun a => a.facultyId == fid).flatMap fun a =>
    (intRangeIncl a.startPeriod a.endPeriod).map fun p => (a.day, p)

/-- `existing_room[rid]`, app.py lines 538-552. -/
def existingRoomPairs (t : TheoryProblemData) (rid : String) :
    List (Int × Int) :=
  (t.existingAssignments.filter fun a => a.roomId == rid).flatMap fun a =>
    (intRangeIncl a.startPeriod a.endPeriod).map fun p => (a.day, p)

/-- `max_period`, app.py line 565: Saturday shrinks to the morning for
non-year-1 courses. -/
def theoryMaxPeriod (c : TheoryCourse) (day : Nat) : Nat :=
  if day == 5 && c.yearLevel != 1 then 4 else 8

/-- `end = start + size - 1`, app.py line 572. -/
def theoryKeyEnd (k : TheoryKey) : Nat := k.startP + k.size - 1

/-- `range(start, end + 1)`: the periods the block covers. -/
def theoryKeyPeriods (k : TheoryKey) : List Nat :=
  (List.range k.size).map (k.startP + ·)

/-- All pre-filters a theory (course, day, start, size, room) combination
must pass to receive a decision variable (app.py lines 563-617, the
`continue` sites in order). -/
def theoryKeyOk (t : TheoryProblemData) (k : TheoryKey) : Bool :=
  let course := t.courses.getD k.cIdx default
  let room := t.rooms.getD k.rIdx default
  let maxP := theoryMaxPeriod course k.day
  let e := theoryKeyEnd k
  decide ((k.size : Int) ≤ course.periodsPerWeek) &&
  decide (e ≤ maxP) &&
  !(decide (k.startP ≤ 4) && decide (5 ≤ e)) &&
  (match facultyAvailMap t.facultyAvailability course.facultyId with
   | .all => true
   | .avail s =>
       (theoryKeyPeriods k).all fun p => s.contains ((k.day : Int), (p : Int))) &&
  !((theoryKeyPeriods k).any fun p =>
      (existingSectionPairs t course.sectionId).contains
        ((k.day : Int), (p : Int)) ||
      (existingFacultyPairs t course.facultyId).contains
        ((k.day : Int), (p : Int))) &&
  !(room.capacity < course.studentCount) &&
  !((theoryKeyPeriods k).any fun p =>
      (existingRoomPairs t room.id).contains ((k.day : Int), (p : Int)))

/-- The full loop nest of app.py lines 563-571 before filtering:
`block_sizes = [1, 2, 3]` (line 519) and
`start in range(1, max_period - size + 2)` (line 571). -/
def theoryCandidates (t : TheoryProblemData) : List TheoryKey :=
  (List.range t.courses.length).flatMap fun cIdx =>
    let course := t.courses.getD cIdx default
    (theoryDays t).flatMap fun day =>
      let maxP := theoryMaxPeriod course day
      [1, 2, 3].flatMap fun size =>
        ((List.range (maxP - size + 1)).map (· + 1)).flatMap fun startP =>
          (List.range t.rooms.length).map fun rIdx =>
            ⟨cIdx, day, startP, size, rIdx⟩

/-- `valid_assignments` for the theory pass, app.py lines 560-617. -/
def validAssignmentsTheory (t : TheoryProblemData) : List TheoryKey :=
  (theoryCandidates t).filter (theoryKeyOk t)

/-- The candidate variables of one theory course, app.py lines 625-629. -/
def theoryCourseVars (t : TheoryProblemData) (cIdx : Nat) : List TheoryKey :=
  (validAssignmentsTheory t).filter fun k => k.cIdx == cIdx

/-!
## Theory pass: constraints (app.py lines 621-710)
-/

/-- Constraint 1 for theory, app.py lines 624-634: for each course whose
candidate set is nonempty, the size-weighted sum of its variables equals
`periodsPerWeek`.  A course with an empty candidate set gets *no*
constraint (the code only prints a line, line 634). -/
def theoryLoadCons (t : TheoryProblemData) : List (LinCon TheoryKey) :=
  (List.range t.courses.length).filterMap fun cIdx =>
    let cv := theoryCourseVars t cIdx
    if cv.isEmpty then none
    else some (.eqCon (cv.map fun k => ((k.size : Int), k))
      (t.courses.getD cIdx default).periodsPerWeek)

/-- `range(1, rules.periodsPerDay + 1)`, app.py line 641 etc. -/
def theoryPeriodRange (t : TheoryProblemData) : List Nat :=
  (List.range t.rules.periodsPerDay.toNat).map (· + 1)

/-- Whether a theory block covers a period:
`start <= period <= end`, app.py line 646. -/
def theoryCovers (k : TheoryKey) (period : Nat) : Bool :=
  decide (k.startP ≤ period) && decide (period ≤ theoryKeyEnd k)

/-- Constraint 2 for theory, app.py lines 639-650: room non-overlap. -/
def theoryRoomCons (t : TheoryProblemData) : List (LinCon TheoryKey) :=
  (List.range t.rooms.length).flatMap fun rIdx =>
    (theoryDays t).flatMap fun day =>
      (theoryPeriodRange t).filterMap fun period =>
        let pv := (validAssignmentsTheory t).filter fun k =>
          k.rIdx == rIdx && k.day == day && theoryCovers k period
        if pv.isEmpty then none
        else some (.leCon (pv.map fun k => ((1 : Int), k)) 1)

/-- Keys of the theory `section_to_courses` dict, app.py lines 655-659. -/
def theorySectionIds (t : TheoryProblemData) : List String :=
  (t.courses.map (·.sectionId)).eraseDups

/-- Course indices of one theory section. -/
def theorySectionCourseIdx (t : TheoryProblemData) (sid : String) : List Nat :=
  (List.range t.courses.length).filter fun i =>
    (t.courses.getD i default).sectionId == sid

/-- Constraint 3 for theory, app.py lines 661-673: section non-overlap. -/
def theorySectionCons (t : TheoryProblemData) : List (LinCon TheoryKey) :=
  (theorySectionIds t).flatMap fun sid =>
    (theoryDays t).flatMap fun day =>
      (theoryPeriodRange t).filterMap fun period =>
        let pv := (theorySectionCourseIdx t sid).flatMap fun cIdx =>
          (validAssignmentsTheory t).filter fun k =>
            k.cIdx == cIdx && k.day == day && theoryCovers k period
        if pv.isEmpty then none
        else some (.leCon (pv.map fun k => ((1 : Int), k)) 1)

/-- Keys of the theory `faculty_to_courses` dict, app.py lines 678-682. -/
def theoryFacultyIds (t : TheoryProblemData) : List String :=
  (t.courses.map (·.facultyId)).eraseDups

/-- Course indices of one theory faculty. -/
def theoryFacultyCourseIdx (t : TheoryProblemData) (fid : String) : List Nat :=
  (List.range t.courses.length).filter fun i =>
    (t.courses.getD i default).facultyId == fid

/-- Constraint 4 for theory, app.py lines 684-696: faculty non-overlap. -/
def theoryFacultyCons (t : TheoryProblemData) : List (LinCon TheoryKey) :=
  (theoryFacultyIds t).flatMap fun fid =>
    (theoryDays t).flatMap fun day =>
      (theoryPeriodRange t).filterMap fun period =>
        let pv := (theoryFacultyCourseIdx t fid).flatMap fun cIdx =>
          (validAssignmentsTheory t).filter fun k =>
            k.cIdx == cIdx && k.day == day && theoryCovers k period
        if pv.isEmpty then none
        else some (.leCon (pv.map fun k => ((1 : Int), k)) 1)

/-- Constraint 5 for theory, app.py lines 701-710: size-weighted sum per
(section, day) at most `rules.maxPeriodsPerDay`. -/
def theoryMaxDayCons (t : TheoryProblemData) : List (LinCon TheoryKey) :=
  (theorySectionIds t).flatMap fun sid =>
    (theoryDays t).filterMap fun day =>
      let dv := (theorySectionCourseIdx t sid).flatMap fun cIdx =>
        (validAssignmentsTheory t).filter fun k =>
          k.cIdx == cIdx && k.day == day
      if dv.isEmpty then none
      else some (.leCon (dv.map fun k => ((k.size : Int), k))
        t.rules.maxPeriodsPerDay)

/-- Every hard constraint of the theory model, in generation order
(app.py lines 621-710; the objective of lines 712-738 is soft). -/
def theoryCons (t : TheoryProblemData) : List (LinCon TheoryKey) :=
  theoryLoadCons t ++ theoryRoomCons t ++ theorySectionCons t ++
  theoryFacultyCons t ++ theoryMaxDayCons t

/-- The solver contract for a satisfying assignment of the theory model. -/
def theorySatisfiesB (t : TheoryProblemData) (sol : TheoryKey → Bool) : Bool :=
  (theoryCons t).all (conHolds sol)

/-!
## Theory pass: extraction and the endpoint result (app.py lines 740-805)
-/

/-- The true keys of a theory solution in enumeration order,
app.py lines 757-759. -/
def theoryChosen (t : TheoryProblemData) (sol : TheoryKey → Bool) :
    List TheoryKey :=
  (validAssignmentsTheory t).filter sol

/-- The `Assignment` emitted for one true theory variable,
app.py lines 760-770. -/
def theoryEmit (t : TheoryProblemData) (k : TheoryKey) : Assignment :=
  let course := t.courses.getD k.cIdx default
  let room := t.rooms.getD k.rIdx default
  { sectionId := course.sectionId
    subjectId := course.subjectId
    day := (k.day : Int)
    startPeriod := (k.startP : Int)
    endPeriod := ((theoryKeyEnd k : Nat) : Int)
    roomId := room.id }

/-- The theory assignment list, app.py lines 757-770. -/
def theoryAssignments (t : TheoryProblemData) (sol : TheoryKey → Bool) :
    List Assignment :=
  (theoryChosen t sol).map (theoryEmit t)

/-- `total_periods`, app.py line 772. -/
def theoryTotalPeriods (t : TheoryProblemData) (sol : TheoryKey → Bool) : Int :=
  ((theoryAssignments t sol).map fun a => a.endPeriod - a.startPeriod + 1).sum

/-- Theory success message, app.py line 778. -/
def theorySuccessMsg (t : TheoryProblemData) (sol : TheoryKey → Bool) : String :=
  "Successfully scheduled " ++ toString (theoryAssignments t sol).length ++
  " theory blocks (" ++ toString (theoryTotalPeriods t sol) ++ " periods)"

/-- The fixed theory INFEASIBLE message, app.py line 788. -/
def theoryInfeasibleMsg : String :=
  "No feasible theory schedule exists. Check room capacities and faculty availability."

/-- `solve_theory_timetable`, app.py lines 478-805, as a function of the
input, the solver's answer and the measured solve time.  Unlike the lab
pass there is no pre-solve raise: courses with empty candidate sets only
produce a log line (line 634) and the solve proceeds. -/
def solveTheory (t : TheoryProblemData) (res : SolverResult TheoryKey)
    (tms : Int) : SolveOutcome :=
  match res with
  | .optimal sol =>
      .ok { success := true, status := "OPTIMAL",
            message := theorySuccessMsg t sol,
            assignments := theoryAssignments t sol, solveTimeMs := tms }
  | .feasible sol =>
      .ok { success := true, status := "FEASIBLE",
            message := theorySuccessMsg t sol,
            assignments := theoryAssignments t sol, solveTimeMs := tms }
  | .infeasible =>
      .ok { success := false, status := "INFEASIBLE",
            message := theoryInfeasibleMsg,
            assignments := [], solveTimeMs := tms }
  | .other s =>
      .ok { success := false, status := s,
            message := "Solver terminated with status: " ++ s,
            assignments := [], solveTimeMs := tms }

/-- Decimal-character test used to state substring facts about the
reported messages. -/
def listHasPrefix (pat l : List Char) : Bool :=
  match pat, l with
  | [], _ => true
  | _ :: _, [] => false
  | p :: ps, c :: cs => p == c && listHasPrefix ps cs

/-- Substring occurrence over the underlying character lists. -/
def listHasSub (l pat : List Char) : Bool :=
  match l with
  | [] => pat.isEmpty
  | _ :: t => listHasPrefix pat l || listHasSub t pat

/-- `pat` occurs as a contiguous substring of `s`. -/
def strHasSub (s pat : String) : Bool :=
  listHasSub s.toList pat.toList

/-- The number of periods a theory solution gives to one course: the
size-weighted count of its true variables (what constraint 1 of the
theory model pins down when the course has any candidate variable). -/
def theoryAssignedPeriods (t : TheoryProblemData) (sol : TheoryKey → Bool)
    (cIdx : Nat) : Int :=
  (((theoryChosen t sol).filter fun k => k.cIdx == cIdx).map
    fun k => (k.size : Int)).sum

/-!
## Concrete instances used by the per-claim witnesses and counterexamples
-/

/-- C1 witness: one lab course, one exact-fit room, unconstrained faculty. -/
def c1LabData : ProblemData :=
  { courses := [⟨"S1", "A", "SUBJ1", "CS101", "F1", "F1", 30, 2⟩]
    rooms := [⟨"R1", "Lab1", 30⟩]
    facultyAvailability := []
    rules := { labPeriods := 4, daysPerWeek := 5, periodsPerDay := 8 } }

/-- C1 witness solution: the Monday-morning variable is true. -/
def c1LabSol : LabKey → Bool := fun k => k == ⟨0, 0, Block.M, 0⟩

/-- C1 witness: one theory course needing 3 periods, one fitting room. -/
def c1TheoryData : TheoryProblemData :=
  { courses := [⟨"S1", "A", "SUBJ1", "CS101", "F1", "F1", 30, 2, 3⟩]
    rooms := [⟨"R1", "Room1", 40⟩]
    facultyAvailability := []
    existingAssignments := []
    rules := { daysPerWeek := 1, periodsPerDay := 8, maxPeriodsPerBlock := 3,
               maxPeriodsPerDay := 6 } }

/-- C1 witness solution: one 3-period block starting at period 1. -/
def c1TheorySol : TheoryKey → Bool := fun k => k == ⟨0, 0, 1, 3, 0⟩

/-- C1 counterexample: the theory course needs 3 periods per week but the
only room is smaller than the class, so the course has zero candidate
variables; the model then contains no constraint at all. -/
def c1CxData : TheoryProblemData :=
  { courses := [⟨"S1", "A", "SUBJ1", "CS101", "F1", "F1", 30, 2, 3⟩]
    rooms := [⟨"R1", "Room1", 20⟩]
    facultyAvailability := []
    existingAssignments := []
    rules := { daysPerWeek := 1, periodsPerDay := 8, maxPeriodsPerBlock := 3,
               maxPeriodsPerDay := 6 } }

/-- C1 counterexample solution: the all-false assignment (what CP-SAT
returns as OPTIMAL for a model with no variables and no constraints). -/
def c1CxSol : TheoryKey → Bool := fun _ => false

/-- C2 counterexample: a lab course no room can host (there are no
rooms), triggering the pre-solve `ValueError`. -/
def c2Data : ProblemData :=
  { courses := [⟨"S1", "A", "SUBJ1", "CS201", "F1", "F1", 100, 2⟩]
    rooms := []
    facultyAvailability := []
    rules := { labPeriods := 4, daysPerWeek := 5, periodsPerDay := 8 } }

/-- C3 counterexample (the spec's Scenario B): a suitable room exists,
but the faculty's single window (day 0, periods 1-3) contains no
4-period block, so the course has zero candidate variables. -/
def c3Data : ProblemData :=
  { courses := [⟨"SB", "B", "SUBJB", "CSB", "F1", "F1", 30, 2⟩]
    rooms := [⟨"RB", "LabB", 40⟩]
    facultyAvailability := [⟨"F1", [⟨0, 1, 3⟩]⟩]
    rules := { labPeriods := 4, daysPerWeek := 6, periodsPerDay := 8 } }

/-- C4 counterexample: a 10-student lab and an 8-seat room; the room
passes the relaxed filter (8 >= int(10*0.85) = 8) although 8 seats are
only 80 percent of the class. -/
def c4Data : ProblemData :=
  { courses := [⟨"S1", "A", "SUB1", "CS4", "F1", "F1", 10, 2⟩]
    rooms := [⟨"R8", "Lab8", 8⟩]
    facultyAvailability := []
    rules := { labPeriods := 4, daysPerWeek := 1, periodsPerDay := 8 } }

/-- C4 counterexample solution: the single morning variable is true. -/
def c4Sol : LabKey → Bool := fun k => k == ⟨0, 0, Block.M, 0⟩

/-- C4 witness: a theory instance with an exactly fitting room. -/
def c4TheoryData : TheoryProblemData :=
  { courses := [⟨"S1", "A", "SUBJ1", "TH4", "F1", "F1", 25, 2, 2⟩]
    rooms := [⟨"R1", "Room1", 25⟩]
    facultyAvailability := []
    existingAssignments := []
    rules := { daysPerWeek := 1, periodsPerDay := 8, maxPeriodsPerBlock := 3,
               maxPeriodsPerDay := 6 } }

/-- C4 witness solution for the theory part. -/
def c4TheorySol : TheoryKey → Bool := fun k => k == ⟨0, 0, 1, 2, 0⟩

/-- C5 counterexample: three labs of one section, a single day and a
single room; every course has candidate variables (so the pre-solve
guard passes) yet only two 4-period blocks exist for three labs, which
is what a real solver reports as INFEASIBLE. -/
def c5Data : ProblemData :=
  { courses := [⟨"S1", "A", "SUBJ1", "CS101", "F1", "F1", 30, 2⟩,
                ⟨"S1", "A", "SUBJ2", "CS102", "F2", "F2", 30, 2⟩,
                ⟨"S1", "A", "SUBJ3", "CS103", "F3", "F3", 30, 2⟩]
    rooms := [⟨"R1", "Lab1", 40⟩]
    facultyAvailability := []
    rules := { labPeriods := 4, daysPerWeek := 1, periodsPerDay := 8 } }

/-- C5 witness: a theory instance for the fixed-message conjunct. -/
def c5TheoryData : TheoryProblemData :=
  { courses := [⟨"S1", "A", "SUBJ1", "TH5", "F1", "F1", 25, 2, 2⟩]
    rooms := [⟨"R1", "Room1", 30⟩]
    facultyAvailability := []
    existingAssignments := []
    rules := { daysPerWeek := 1, periodsPerDay := 8, maxPeriodsPerBlock := 3,
               maxPeriodsPerDay := 6 } }

/-- C6 witness: one existing assignment occupies section S1 on day 0,
periods 1-2; the enumerator must only produce non-overlapping keys. -/
def c6Data : TheoryProblemData :=
  { courses := [⟨"S1", "A", "SUBJ1", "TH1", "F1", "F1", 25, 2, 3⟩]
    rooms := [⟨"R1", "Room1", 30⟩]
    facultyAvailability := []
    existingAssignments := [⟨"S1", 0, 1, 2, "F9", "R9"⟩]
    rules := { daysPerWeek := 1, periodsPerDay := 8, maxPeriodsPerBlock := 3,
               maxPeriodsPerDay := 6 } }

/-- C7 witness: a plain theory instance with a valid 2-period block. -/
def c7Data : TheoryProblemData :=
  { courses := [⟨"S1", "A", "SUBJ1", "TH7", "F1", "F1", 20, 2, 3⟩]
    rooms := [⟨"R1", "Room1", 30⟩]
    facultyAvailability := []
    existingAssignments := []
    rules := { daysPerWeek := 1, periodsPerDay := 8, maxPeriodsPerBlock := 3,
               maxPeriodsPerDay := 6 } }

/-- C8 witness: a lab instance that passes the pre-solve guard. -/
def c8Data : ProblemData :=
  { courses := [⟨"S1", "A", "SUBJ1", "CS8", "F1", "F1", 20, 2⟩]
    rooms := [⟨"R1", "Lab1", 20⟩]
    facultyAvailability := []
    rules := { labPeriods := 4, daysPerWeek := 1, periodsPerDay := 8 } }

/-- C8 witness: a theory instance for the theory conjunct. -/
def c8TheoryData : TheoryProblemData :=
  { courses := [⟨"S1", "A", "SUBJ1", "TH8", "F1", "F1", 20, 2, 2⟩]
    rooms := [⟨"R1", "Room1", 30⟩]
    facultyAvailability := []
    existingAssignments := []
    rules := { daysPerWeek := 1, periodsPerDay := 8, maxPeriodsPerBlock := 3,
               maxPeriodsPerDay := 6 } }

/-- C9 witness: one constrained faculty, one explicitly unconstrained
faculty; "F3" is absent from the input. -/
def c9Avails : List FacultyAvailability :=
  [⟨"F1", [⟨0, 1, 2⟩]⟩, ⟨"F2", []⟩]

/-- C10 witness: `rules.labPeriods = 7` and `rules.periodsPerDay = 3`,
yet labs are still placed on the fixed blocks 1-4 / 5-8. -/
def c10Data : ProblemData :=
  { courses := [⟨"S1", "A", "SUBJ1", "CS10", "F1", "F1", 20, 2⟩]
    rooms := [⟨"R1", "Lab1", 20⟩]
    facultyAvailability := []
    rules := { labPeriods := 7, daysPerWeek := 1, periodsPerDay := 3 } }

/-- C10 witness solution: the afternoon variable is true. -/
def c10Sol : LabKey → Bool := fun k => k == ⟨0, 0, Block.A, 0⟩

/-!
## Helper lemmas
-/

/-- A unit-coefficient linear form counts the true variables. -/
theorem lhsVal_unit {K : Type} (sol : K → Bool) (l : List K) :
    lhsVal sol (l.map fun k => ((1 : Int), k)) = (l.countP sol : Int) := by
  induction l with
  | nil => simp [lhsVal]
  | cons a l ih =>
    unfold lhsVal at *
    rw [List.map_cons, List.map_cons, List.sum_cons, ih, List.countP_cons]
    cases h : sol a <;> simp [boolInt, h]
    ring

/-- A weighted linear form sums the weights of the true variables. -/
theorem lhsVal_weight {K : Type} (sol : K → Bool) (w : K → Int) (l : List K) :
    lhsVal sol (l.map fun k => (w k, k)) = ((l.filter sol).map w).sum := by
  induction l with
  | nil => simp [lhsVal]
  | cons a l ih =>
    unfold lhsVal at *
    rw [List.map_cons, List.map_cons, List.sum_cons, ih, List.filter_cons]
    cases h : sol a <;> simp [boolInt, h]

/-- Counting under one filter equals counting under the other. -/
theorem countP_filter_swap {K : Type} (p q : K → Bool) (l : List K) :
    (l.filter p).countP q = (l.filter q).countP p := by
  rw [List.countP_filter, List.countP_filter]
  exact List.countP_congr fun a _ => by simp [Bool.and_comm]

/-- If the pre-solve guard passes, every lab course has a candidate
variable (app.py lines 198-269: `unschedulable_labs` is empty exactly
when no course's `course_vars` list is empty). -/
theorem labCourseVars_nonempty_of_presolve (d : ProblemData)
    (h : (unschedulableLabs d).isEmpty = true) :
    ∀ cIdx < d.courses.length, (labCourseVars d cIdx).isEmpty = false := by
  intro cIdx hlt
  have h0 : unschedulableLabs d = [] := by
    cases hu : unschedulableLabs d with
    | nil => rfl
    | cons a l => rw [hu] at h; simp [List.isEmpty] at h
  have hall := List.filterMap_eq_nil_iff.mp h0 cIdx (List.mem_range.mpr hlt)
  by_contra hne
  have he : (labCourseVars d cIdx).isEmpty = true := by
    cases hcv : (labCourseVars d cIdx).isEmpty with
    | false => exact absurd hcv hne
    | true => rfl
  rw [if_pos he] at hall
  exact Option.noConfusion hall

/-- The load constraint of a lab course with candidates is in the model. -/
theorem labLoadCon_mem (d : ProblemData) (cIdx : Nat)
    (hlt : cIdx < d.courses.length)
    (hne : (labCourseVars d cIdx).isEmpty = false) :
    LinCon.eqCon ((labCourseVars d cIdx).map fun k => ((1 : Int), k)) 1 ∈
      labCons d := by
  apply List.mem_append_left
  apply List.mem_append_left
  apply List.mem_append_left
  apply List.mem_filterMap.mpr
  refine ⟨cIdx, List.mem_range.mpr hlt, ?_⟩
  simp only [hne]
  rfl

/-- The load constraint of a theory course with candidates is in the model. -/
theorem theoryLoadCon_mem (t : TheoryProblemData) (cIdx : Nat)
    (hlt : cIdx < t.courses.length)
    (hne : (theoryCourseVars t cIdx).isEmpty = false) :
    LinCon.eqCon ((theoryCourseVars t cIdx).map fun k => ((k.size : Int), k))
        (t.courses.getD cIdx default).periodsPerWeek ∈ theoryCons t := by
  apply List.mem_append_left
  apply List.mem_append_left
  apply List.mem_append_left
  apply List.mem_append_left
  apply List.mem_filterMap.mpr
  refine ⟨cIdx, List.mem_range.mpr hlt, ?_⟩
  simp only [hne]
  rfl

/-- Folding the dict-building step over entries none of which carry the
looked-up faculty id leaves the map unchanged at that id. -/
theorem availFold_no_match (l : List FacultyAvailability)
    (m : String → FacultyAvail) (fid : String)
    (h : ∀ fa ∈ l, fa.facultyId ≠ fid) :
    (l.foldl availStep m) fid = m fid := by
  induction l generalizing m with
  | nil => rfl
  | cons b rest ih =>
    rw [List.foldl_cons]
    rw [ih _ fun fa hfa => h fa (List.mem_cons_of_mem b hfa)]
    have hb : fid ≠ b.facultyId := Ne.symm (h b (List.mem_cons_self b rest))
    simp [availStep, hb]

/-- With distinct faculty ids, folding the dict-building step resolves
the looked-up id to its unique entry. -/
theorem availFold_match (l : List FacultyAvailability)
    (m : String → FacultyAvail) (fid : String) (fa : FacultyAvailability)
    (hmem : fa ∈ l) (hid : fa.facultyId = fid)
    (hnd : (l.map (·.facultyId)).Nodup) :
    (l.foldl availStep m) fid = availEntry fa := by
  induction l generalizing m with
  | nil => cases hmem
  | cons b rest ih =>
    rw [List.map_cons, List.nodup_cons] at hnd
    rw [List.foldl_cons]
    rcases List.mem_cons.mp hmem with heq | hrest
    · subst heq
      rw [availFold_no_match rest _ fid]
      · simp [availStep, hid]
      · intro fa' hfa' hcon
        exact hnd.1 (hid ▸ hcon ▸ List.mem_map_of_mem (·.facultyId) hfa')
    · exact ih _ hrest hnd.2

/-- Membership in the expanded pair set of a window list is exactly
"some window covers the day and the period inclusively". -/
theorem mem_slots_flatMap (slots : List AvailabilitySlot) (dy p : Int) :
    (dy, p) ∈ slots.flatMap slotPairs ↔
      ∃ s ∈ slots, s.dayOfWeek = dy ∧ s.startPeriod ≤ p ∧ p ≤ s.endPeriod := by
  rw [List.mem_flatMap]
  constructor
  · rintro ⟨s, hs, hp⟩
    rw [slotPairs, List.mem_map] at hp
    obtain ⟨k, hkmem, heq⟩ := hp
    rw [List.mem_range] at hkmem
    rw [Prod.mk.injEq] at heq
    obtain ⟨h1, h2⟩ := heq
    have hk' := Int.lt_toNat.mp hkmem
    exact ⟨s, hs, h1, by omega⟩
  · rintro ⟨s, hs, hd, h1, h2⟩
    refine ⟨s, hs, ?_⟩
    rw [slotPairs, List.mem_map]
    have e1 : (((p - s.startPeriod).toNat : Nat) : Int) = p - s.startPeriod :=
      Int.toNat_of_nonneg (by omega)
    refine ⟨(p - s.startPeriod).toNat, ?_, ?_⟩
    · rw [List.mem_range]
      exact Int.lt_toNat.mpr (by rw [e1]; omega)
    · rw [Prod.mk.injEq]
      refine ⟨hd, ?_⟩
      rw [e1]
      omega

/-- Unpacking the enumerator pre-filters for a theory key that received a
decision variable: no lunch straddle, exact room capacity, and no overlap
with existing section/faculty/room occupancy. -/
theorem theoryKeyOk_parts (t : TheoryProblemData) (k : TheoryKey)
    (hok : theoryKeyOk t k = true) :
    (¬(k.startP ≤ 4 ∧ 5 ≤ theoryKeyEnd k)) ∧
    ((t.courses.getD k.cIdx default).studentCount ≤
      (t.rooms.getD k.rIdx default).capacity) ∧
    (∀ p ∈ theoryKeyPeriods k,
      ((k.day : Int), (p : Int)) ∉
        existingSectionPairs t (t.courses.getD k.cIdx default).sectionId ∧
      ((k.day : Int), (p : Int)) ∉
        existingFacultyPairs t (t.courses.getD k.cIdx default).facultyId ∧
      ((k.day : Int), (p : Int)) ∉
        existingRoomPairs t (t.rooms.getD k.rIdx default).id) := by
  unfold theoryKeyOk at hok
  simp only [Bool.and_eq_true, Bool.not_eq_true', List.any_eq_false,
    Bool.or_eq_false_iff, decide_eq_true_eq, decide_eq_false_iff_not] at hok
  obtain ⟨⟨⟨⟨⟨⟨hA, hB⟩, hC⟩, hD⟩, hE⟩, hF⟩, hG⟩ := hok
  refine ⟨?_, by omega, ?_⟩
  · rintro ⟨h1, h2⟩
    simp [h1, h2] at hC
  · intro p hp
    have he := hE p hp
    rw [Bool.or_eq_true] at he
    push_neg at he
    have hg := hG p hp
    refine ⟨?_, ?_, ?_⟩
    · intro hmem
      exact he.1 (List.elem_iff.mpr hmem)
    · intro hmem
      exact he.2 (List.elem_iff.mpr hmem)
    · intro hmem
      exact hg (List.elem_iff.mpr hmem)

/-!
## Claim theorems
-/

/-- C1 (amended): for every lab run that reaches the solver (the
pre-solve guard passed) and every satisfying assignment, each lab course
receives exactly one placement.  For every theory run and satisfying
assignment, each course *with at least one candidate variable* receives
periods summing exactly to its `periodsPerWeek`.  (As stated, the claim
fails for theory courses with zero candidate variables, which get no
load constraint at all — see the counterexample.) -/
theorem c1_load_exactness :
    (∀ (d : ProblemData) (sol : LabKey → Bool),
       (unschedulableLabs d).isEmpty = true →
       labSatisfiesB d sol = true →
       ∀ cIdx < d.courses.length,
         ((labChosen d sol).countP fun k => k.cIdx == cIdx) = 1) ∧
    (∀ (t : TheoryProblemData) (sol : TheoryKey → Bool),
       theorySatisfiesB t sol = true →
       ∀ cIdx < t.courses.length,
         (theoryCourseVars t cIdx).isEmpty = false →
         theoryAssignedPeriods t sol cIdx =
           (t.courses.getD cIdx default).periodsPerWeek) := by
  constructor
  · intro d sol hpre hsat cIdx hlt
    have hne := labCourseVars_nonempty_of_presolve d hpre cIdx hlt
    have hmem := labLoadCon_mem d cIdx hlt hne
    have hcon := List.all_eq_true.mp hsat _ hmem
    simp only [conHolds] at hcon
    rw [beq_iff_eq] at hcon
    rw [lhsVal_unit] at hcon
    have h2 : (labCourseVars d cIdx).countP sol = 1 := by exact_mod_cast hcon
    calc ((labChosen d sol).countP fun k => k.cIdx == cIdx)
        = ((validAssignmentsLab d).filter (fun k => k.cIdx == cIdx)).countP sol :=
          countP_filter_swap sol (fun k => k.cIdx == cIdx) (validAssignmentsLab d)
      _ = 1 := h2
  · intro t sol hsat cIdx hlt hne
    have hmem := theoryLoadCon_mem t cIdx hlt hne
    have hcon := List.all_eq_true.mp hsat _ hmem
    simp only [conHolds] at hcon
    rw [beq_iff_eq] at hcon
    rw [lhsVal_weight] at hcon
    unfold theoryAssignedPeriods theoryChosen
    unfold theoryCourseVars at hcon
    rw [List.filter_comm] at hcon
    exact hcon

/-- C1 counterexample: in `c1CxData` the only theory course needs 3
periods per week but has zero candidate variables (the single room is
too small), so the built model is empty; the all-false assignment
satisfies every constraint of that model while the course receives 0
periods and no Assignment at all. -/
theorem c1_counterexample :
    theorySatisfiesB c1CxData c1CxSol = true ∧
    (c1CxData.courses.getD 0 default).periodsPerWeek = 3 ∧
    theoryAssignedPeriods c1CxData c1CxSol 0 = 0 ∧
    theoryAssignments c1CxData c1CxSol = [] := by
  refine ⟨by decide, by decide, by decide, by decide⟩

/-- C1 witness: the amended theorem applied to a concrete lab run and a
concrete theory run. -/
theorem c1_witness :
    ((labChosen c1LabData c1LabSol).countP fun k => k.cIdx == 0) = 1 ∧
    theoryAssignedPeriods c1TheoryData c1TheorySol 0 =
      (c1TheoryData.courses.getD 0 default).periodsPerWeek :=
  ⟨c1_load_exactness.1 c1LabData c1LabSol (by decide) (by decide) 0 (by decide),
   c1_load_exactness.2 c1TheoryData c1TheorySol (by decide) 0 (by decide)
     (by decide)⟩

/-- C2 (amended): solver-reported infeasibility is returned as a
structured failure response, but pre-solve structural infeasibility in
the lab pass is *raised* (`ValueError`, app.py line 262) and converted by
the endpoint's catch-all into an HTTP 500 server error whose detail is
the diagnosis text — it is not returned as a `SolutionResponse`. -/
theorem c2_infeasibility_propagation :
    (∀ (d : ProblemData) (tms : Int),
       (unschedulableLabs d).isEmpty = true →
       solveLabs d SolverResult.infeasible tms =
         SolveOutcome.ok ⟨false, "INFEASIBLE", labInfeasibleMsg d, [], tms⟩) ∧
    (∀ (d : ProblemData) (res : SolverResult LabKey) (tms : Int),
       (unschedulableLabs d).isEmpty = false →
       solveLabs d res tms = SolveOutcome.httpError 500 (labValueErrorMsg d)) ∧
    (∀ (t : TheoryProblemData) (tms : Int),
       solveTheory t SolverResult.infeasible tms =
         SolveOutcome.ok ⟨false, "INFEASIBLE", theoryInfeasibleMsg, [], tms⟩) := by
  refine ⟨?_, ?_, ?_⟩
  · intro d tms h
    simp [solveLabs, h]
  · intro d res tms h
    simp [solveLabs, h]
  · intro t tms
    rfl

/-- C2 counterexample: `c2Data` has one structurally unschedulable lab
(no rooms at all); the outcome is an HTTP 500 server error, not a
structured failure response. -/
theorem c2_counterexample :
    (unschedulableLabs c2Data).length = 1 ∧
    solveLabs c2Data SolverResult.infeasible 0 =
      SolveOutcome.httpError 500 (labValueErrorMsg c2Data) := by
  exact ⟨by decide, rfl⟩

/-- C2 witness for the amended theorem. -/
theorem c2_witness :
    solveLabs c1LabData SolverResult.infeasible 0 =
      SolveOutcome.ok ⟨false, "INFEASIBLE", labInfeasibleMsg c1LabData, [], 0⟩ ∧
    solveLabs c2Data SolverResult.infeasible 0 =
      SolveOutcome.httpError 500 (labValueErrorMsg c2Data) ∧
    solveTheory c1TheoryData SolverResult.infeasible 0 =
      SolveOutcome.ok ⟨false, "INFEASIBLE", theoryInfeasibleMsg, [], 0⟩ :=
  ⟨c2_infeasibility_propagation.1 c1LabData 0 (by decide),
   c2_infeasibility_propagation.2.1 c2Data SolverResult.infeasible 0 (by decide),
   c2_infeasibility_propagation.2.2 c1TheoryData 0⟩

/-- C3 (amended): when some lab course has zero candidate variables the
run terminates without consulting the solver (the result below does not
depend on `res`) as an HTTP 500 whose detail is the `ValueError` text;
that text lists, per blocked course, its identity, student count,
faculty code and the *counts* of suitable rooms and availability
windows, but not the computed `blockingReasons` cause strings — see the
counterexample. -/
theorem c3_shortcircuit_report (d : ProblemData) (res : SolverResult LabKey)
    (tms : Int) (h : (unschedulableLabs d).isEmpty = false) :
    solveLabs d res tms = SolveOutcome.httpError 500 (labValueErrorMsg d) := by
  simp [solveLabs, h]

set_option maxRecDepth 40000 in
/-- C3 counterexample (the spec's Scenario B): the diagnosis computes
the cause "Faculty windows don\x27t allow 4-period blocks", yet the
reported outcome does not contain that cause (not even the fragment
"4-period blocks"). -/
theorem c3_counterexample :
    ((unschedulableLabs c3Data).getD 0 default).blockingReasons =
      [noBlocksReason] ∧
    solveLabs c3Data SolverResult.infeasible 0 =
      SolveOutcome.httpError 500 (labValueErrorMsg c3Data) ∧
    strHasSub (labValueErrorMsg c3Data) "4-period blocks" = false := by
  refine ⟨by decide, rfl, by decide⟩

/-- C3 witness: the same pre-solve input short-circuits identically under
a different solver answer. -/
theorem c3_witness :
    solveLabs c3Data (SolverResult.other "UNKNOWN") 0 =
      SolveOutcome.httpError 500 (labValueErrorMsg c3Data) :=
  c3_shortcircuit_report c3Data (SolverResult.other "UNKNOWN") 0 (by decide)

/-- C4 (amended): every lab placement's room has capacity at least
`int(0.85 * studentCount)` — the *truncated* 85 percent threshold, which
can lie strictly below 85 percent of the student count (see the
counterexample) — and every theory placement's room has capacity at
least the full student count. -/
theorem c4_capacity_thresholds :
    (∀ (d : ProblemData) (sol : LabKey → Bool) (k : LabKey),
       k ∈ labChosen d sol →
       labMinCap (d.courses.getD k.cIdx default) ≤
         (d.rooms.getD k.rIdx default).capacity) ∧
    (∀ (t : TheoryProblemData) (sol : TheoryKey → Bool) (k : TheoryKey),
       k ∈ theoryChosen t sol →
       (t.courses.getD k.cIdx default).studentCount ≤
         (t.rooms.getD k.rIdx default).capacity) := by
  constructor
  · intro d sol k hk
    have hv : k ∈ validAssignmentsLab d := (List.mem_filter.mp hk).1
    have hok : labKeyOk d k = true := (List.mem_filter.mp hv).2
    unfold labKeyOk at hok
    simp only [Bool.and_eq_true, Bool.not_eq_true',
      decide_eq_false_iff_not] at hok
    have h3 := hok.2
    omega
  · intro t sol k hk
    have hv : k ∈ validAssignmentsTheory t := (List.mem_filter.mp hk).1
    exact (theoryKeyOk_parts t k (List.mem_filter.mp hv).2).2.1

/-- C4 counterexample: a 10-student lab is placed in an 8-seat room in a
FEASIBLE run; 8 seats are 80 percent of the class, below the claimed
85 percent bound. -/
theorem c4_counterexample :
    labSatisfiesB c4Data c4Sol = true ∧
    labAssignments c4Data c4Sol = [⟨"S1", "SUB1", 0, 1, 4, "R8"⟩] ∧
    solveLabs c4Data (SolverResult.feasible c4Sol) 0 =
      SolveOutcome.ok ⟨true, "FEASIBLE", labSuccessMsg c4Data c4Sol,
        labAssignments c4Data c4Sol, 0⟩ ∧
    20 * (c4Data.rooms.getD 0 default).capacity <
      17 * (c4Data.courses.getD 0 default).studentCount := by
  refine ⟨by decide, by decide, rfl, by decide⟩

/-- C4 witness for the amended theorem. -/
theorem c4_witness :
    labMinCap (c4Data.courses.getD 0 default) ≤
      (c4Data.rooms.getD 0 default).capacity ∧
    (c4TheoryData.courses.getD 0 default).studentCount ≤
      (c4TheoryData.rooms.getD 0 default).capacity :=
  ⟨c4_capacity_thresholds.1 c4Data c4Sol ⟨0, 0, Block.M, 0⟩ (by decide),
   c4_capacity_thresholds.2 c4TheoryData c4TheorySol ⟨0, 0, 1, 2, 0⟩ (by decide)⟩

/-- C5 (amended): when every lab course has candidate variables and the
solver reports INFEASIBLE, the response's "Possible issues" section is
the literal "Unknown reason" (the per-course diagnostic of app.py lines
409-413 only covers courses with *no* candidates, which cannot occur on
this path), followed by fixed generic suggestions; the theory INFEASIBLE
response is a fixed one-line generic message.  Neither response names
any course or a joint-constraint cause. -/
theorem c5_infeasible_generic_response :
    (∀ (d : ProblemData) (tms : Int),
       (unschedulableLabs d).isEmpty = true →
       labDiagMsg d = "Unknown reason" ∧
       solveLabs d SolverResult.infeasible tms =
         SolveOutcome.ok ⟨false, "INFEASIBLE", labInfeasibleMsg d, [], tms⟩) ∧
    (∀ (t : TheoryProblemData) (tms : Int),
       solveTheory t SolverResult.infeasible tms =
         SolveOutcome.ok ⟨false, "INFEASIBLE", theoryInfeasibleMsg, [], tms⟩) := by
  constructor
  · intro d tms h
    constructor
    · have hdiag : labDiag d = [] := by
        apply List.filterMap_eq_nil_iff.mpr
        intro cIdx hmem
        have hne := labCourseVars_nonempty_of_presolve d h cIdx
          (List.mem_range.mp hmem)
        simp [hne]
      unfold labDiagMsg
      rw [hdiag]
      rfl
    · simp [solveLabs, h]
  · intro t tms
    rfl

set_option maxRecDepth 40000 in
/-- C5 counterexample: in `c5Data` every lab course has candidate
variables (three same-section labs, one day, so a real solver reports
INFEASIBLE by pigeonhole over the two blocks), yet the INFEASIBLE
response names no course at all — its issues section is the generic
"Unknown reason". -/
theorem c5_counterexample :
    (labCourseVars c5Data 0).isEmpty = false ∧
    (labCourseVars c5Data 1).isEmpty = false ∧
    (labCourseVars c5Data 2).isEmpty = false ∧
    solveLabs c5Data SolverResult.infeasible 0 =
      SolveOutcome.ok ⟨false, "INFEASIBLE", labInfeasibleMsg c5Data, [], 0⟩ ∧
    strHasSub (labInfeasibleMsg c5Data) "CS101" = false ∧
    strHasSub (labInfeasibleMsg c5Data) "CS102" = false ∧
    strHasSub (labInfeasibleMsg c5Data) "CS103" = false ∧
    strHasSub (labInfeasibleMsg c5Data) "Unknown reason" = true := by
  refine ⟨by decide, by decide, by decide, rfl, by decide, by decide, by decide,
    by decide⟩

/-- C5 witness for the amended theorem. -/
theorem c5_witness :
    (labDiagMsg c5Data = "Unknown reason" ∧
     solveLabs c5Data SolverResult.infeasible 5 =
       SolveOutcome.ok ⟨false, "INFEASIBLE", labInfeasibleMsg c5Data, [], 5⟩) ∧
    solveTheory c5TheoryData SolverResult.infeasible 5 =
      SolveOutcome.ok ⟨false, "INFEASIBLE", theoryInfeasibleMsg, [], 5⟩ :=
  ⟨c5_infeasible_generic_response.1 c5Data 5 (by decide),
   c5_infeasible_generic_response.2 c5TheoryData 5⟩

/-- C6: every theory decision variable created by the enumerator covers
no (day, period) already occupied by an existing fixed assignment of the
same section, the same faculty, or the same room (app.py lines 586-613). -/
theorem c6_no_existing_overlap (t : TheoryProblemData) (k : TheoryKey)
    (hk : k ∈ validAssignmentsTheory t) :
    ∀ p ∈ theoryKeyPeriods k,
      ((k.day : Int), (p : Int)) ∉
        existingSectionPairs t (t.courses.getD k.cIdx default).sectionId ∧
      ((k.day : Int), (p : Int)) ∉
        existingFacultyPairs t (t.courses.getD k.cIdx default).facultyId ∧
      ((k.day : Int), (p : Int)) ∉
        existingRoomPairs t (t.rooms.getD k.rIdx default).id :=
  (theoryKeyOk_parts t k (List.mem_filter.mp hk).2).2.2

/-- C6 witness: in `c6Data` the key (course 0, day 0, start 3, size 1,
room 0) is enumerated, and its single period 3 avoids the existing
occupancy of section S1, faculty F1 and room R1. -/
theorem c6_witness :
    ((0 : Int), (3 : Int)) ∉ existingSectionPairs c6Data "S1" ∧
    ((0 : Int), (3 : Int)) ∉ existingFacultyPairs c6Data "F1" ∧
    ((0 : Int), (3 : Int)) ∉ existingRoomPairs c6Data "R1" := by
  have h := c6_no_existing_overlap c6Data ⟨0, 0, 3, 1, 0⟩ (by decide) 3 (by decide)
  exact h

/-- C7: no enumerated theory block straddles the lunch boundary — there
is never a variable with startPeriod at most 4 and endPeriod at least 5
(app.py line 577) — and hence no emitted theory Assignment does. -/
theorem c7_no_lunch_straddle :
    (∀ (t : TheoryProblemData) (k : TheoryKey),
       k ∈ validAssignmentsTheory t →
       ¬(k.startP ≤ 4 ∧ 5 ≤ theoryKeyEnd k)) ∧
    (∀ (t : TheoryProblemData) (sol : TheoryKey → Bool) (a : Assignment),
       a ∈ theoryAssignments t sol →
       ¬(a.startPeriod ≤ 4 ∧ 5 ≤ a.endPeriod)) := by
  have hkey : ∀ (t : TheoryProblemData) (k : TheoryKey),
      k ∈ validAssignmentsTheory t → ¬(k.startP ≤ 4 ∧ 5 ≤ theoryKeyEnd k) :=
    fun t k hk => (theoryKeyOk_parts t k (List.mem_filter.mp hk).2).1
  refine ⟨hkey, ?_⟩
  intro t sol a ha
  rw [theoryAssignments, List.mem_map] at ha
  obtain ⟨k, hk, rfl⟩ := ha
  have h := hkey t k (List.mem_filter.mp hk).1
  simp only [theoryEmit]
  rintro ⟨h1, h2⟩
  exact h ⟨by exact_mod_cast h1, by exact_mod_cast h2⟩

/-- C7 witness: the valid key (start 1, size 2) of `c7Data` satisfies the
no-straddle property. -/
theorem c7_witness :
    ¬((1 : Nat) ≤ 4 ∧ 5 ≤ theoryKeyEnd ⟨0, 0, 1, 2, 0⟩) :=
  c7_no_lunch_straddle.1 c7Data ⟨0, 0, 1, 2, 0⟩ (by decide)

/-- C8: any terminal solver status other than OPTIMAL, FEASIBLE and
INFEASIBLE is surfaced verbatim as the response's status, with success
false and zero assignments (app.py lines 425-434 and 793-801; the lab
pass reaches the solver only when the pre-solve guard passes). -/
theorem c8_other_status_verbatim :
    (∀ (d : ProblemData) (s : String) (tms : Int),
       (unschedulableLabs d).isEmpty = true →
       solveLabs d (SolverResult.other s) tms =
         SolveOutcome.ok
           ⟨false, s, "Solver terminated with status: " ++ s, [], tms⟩) ∧
    (∀ (t : TheoryProblemData) (s : String) (tms : Int),
       solveTheory t (SolverResult.other s) tms =
         SolveOutcome.ok
           ⟨false, s, "Solver terminated with status: " ++ s, [], tms⟩) := by
  constructor
  · intro d s tms h
    simp [solveLabs, h]
  · intro t s tms
    rfl

/-- C8 witness: concrete other-status runs for both passes. -/
theorem c8_witness :
    solveLabs c8Data (SolverResult.other "MODEL_INVALID") 7 =
      SolveOutcome.ok ⟨false, "MODEL_INVALID",
        "Solver terminated with status: MODEL_INVALID", [], 7⟩ ∧
    solveTheory c8TheoryData (SolverResult.other "UNKNOWN") 3 =
      SolveOutcome.ok ⟨false, "UNKNOWN",
        "Solver terminated with status: UNKNOWN", [], 3⟩ := by
  constructor
  · rw [c8_other_status_verbatim.1 c8Data "MODEL_INVALID" 7 (by decide)]
    rfl
  · rw [c8_other_status_verbatim.2 c8TheoryData "UNKNOWN" 3]
    rfl

/-- C9: with one availability record per faculty, the indexer maps a
faculty absent from the input to the unconstrained sentinel, maps a
faculty with an empty window list to the unconstrained sentinel, and
maps a faculty with windows to exactly the union of the inclusive
(day, period) expansions of its windows (app.py lines 134-153 and
521-531). -/
theorem c9_availability_indexer (l : List FacultyAvailability) (fid : String)
    (hnd : (l.map (·.facultyId)).Nodup) :
    ((∀ fa ∈ l, fa.facultyId ≠ fid) →
       facultyAvailMap l fid = FacultyAvail.all) ∧
    (∀ fa ∈ l, fa.facultyId = fid → fa.slots = [] →
       facultyAvailMap l fid = FacultyAvail.all) ∧
    (∀ fa ∈ l, fa.facultyId = fid → fa.slots ≠ [] →
       facultyAvailMap l fid =
         FacultyAvail.avail (fa.slots.flatMap slotPairs) ∧
       ∀ dy p : Int,
         ((dy, p) ∈ fa.slots.flatMap slotPairs ↔
           ∃ s ∈ fa.slots, s.dayOfWeek = dy ∧ s.startPeriod ≤ p ∧
             p ≤ s.endPeriod)) := by
  refine ⟨?_, ?_, ?_⟩
  · intro h
    exact availFold_no_match l (fun _ => .all) fid h
  · intro fa hmem hid hslots
    unfold facultyAvailMap
    rw [availFold_match l (fun _ => .all) fid fa hmem hid hnd]
    simp [availEntry, hslots]
  · intro fa hmem hid hslots
    constructor
    · unfold facultyAvailMap
      rw [availFold_match l (fun _ => .all) fid fa hmem hid hnd]
      simp [availEntry, hslots]
    · intro dy p
      exact mem_slots_flatMap fa.slots dy p

/-- C9 witness: the indexer evaluated on `c9Avails` at an absent id, an
empty-window id and a windowed id. -/
theorem c9_witness :
    facultyAvailMap c9Avails "F3" = FacultyAvail.all ∧
    facultyAvailMap c9Avails "F2" = FacultyAvail.all ∧
    facultyAvailMap c9Avails "F1" = FacultyAvail.avail [(0, 1), (0, 2)] := by
  refine ⟨(c9_availability_indexer c9Avails "F3" (by decide)).1 (by decide),
          (c9_availability_indexer c9Avails "F2" (by decide)).2.1
            ⟨"F2", []⟩ (by decide) rfl rfl, ?_⟩
  have h := ((c9_availability_indexer c9Avails "F1" (by decide)).2.2
    ⟨"F1", [⟨0, 1, 2⟩]⟩ (by decide) rfl (by decide)).1
  rw [h]
  rfl

/-- C10: every lab Assignment occupies exactly one of the two fixed
blocks — periods (1, 4) or (5, 8) — and the enumerated lab variable set
is unchanged under arbitrary `rules.labPeriods` and
`rules.periodsPerDay`, so those rule fields never influence which period
ranges a lab can occupy (app.py lines 125-132 and 374-388). -/
theorem c10_fixed_lab_blocks :
    (∀ (d : ProblemData) (sol : LabKey → Bool) (a : Assignment),
       a ∈ labAssignments d sol →
       (a.startPeriod = 1 ∧ a.endPeriod = 4) ∨
       (a.startPeriod = 5 ∧ a.endPeriod = 8)) ∧
    (∀ (d : ProblemData) (lp pd : Int),
       validAssignmentsLab
         { d with rules :=
             { d.rules with labPeriods := lp, periodsPerDay := pd } } =
         validAssignmentsLab d) := by
  constructor
  · intro d sol a ha
    rw [labAssignments, List.mem_map] at ha
    obtain ⟨k, hk, rfl⟩ := ha
    cases hb : k.block
    · left
      constructor <;> simp [labEmit, hb, blockPeriods]
    · right
      constructor <;> simp [labEmit, hb, blockPeriods]
  · intro d lp pd
    rfl

/-- C10 witness: with `labPeriods = 7` and `periodsPerDay = 3` in the
rules, the emitted lab Assignment still occupies periods 5-8, and the
variable set is invariant under restoring conventional rule values. -/
theorem c10_witness :
    (((⟨"S1", "SUBJ1", 0, 5, 8, "R1"⟩ : Assignment).startPeriod = 1 ∧
      (⟨"S1", "SUBJ1", 0, 5, 8, "R1"⟩ : Assignment).endPeriod = 4) ∨
     ((⟨"S1", "SUBJ1", 0, 5, 8, "R1"⟩ : Assignment).startPeriod = 5 ∧
      (⟨"S1", "SUBJ1", 0, 5, 8, "R1"⟩ : Assignment).endPeriod = 8)) ∧
    validAssignmentsLab
      { c10Data with rules :=
          { c10Data.rules with labPeriods := 4, periodsPerDay := 8 } } =
      validAssignmentsLab c10Data :=
  ⟨c10_fixed_lab_blocks.1 c10Data c10Sol ⟨"S1", "SUBJ1", 0, 5, 8, "R1"⟩
     (by decide),
   c10_fixed_lab_blocks.2 c10Data 4 8⟩
